import Mathlib

/-!
A shallow embedding of `_samgeo_lib.py`: the dependency resolver that returns
the external `samgeo` library module from inside a QGIS plugin whose package
name (`samgeo`) shadows that library.

The interpreter state the resolver reads and mutates (`sys.path`,
`sys.modules`, the module-level `_CACHED` slot) is passed explicitly; the
ambient Python world (import machinery, installed-distribution metadata,
filesystem path resolution, module execution) is a record of functions, each
of which may raise an exception, identified by a `Nat` code.
-/

namespace SamgeoLib

/-- A canonical (fully resolved, absolute) filesystem path, as its component
list from the root.  `Path.resolve()` on an already-canonical path is the
identity, and `child.is_relative_to(parent)` on canonical paths is
component-list prefix. -/
abbrev CanonPath := List String

/-- A Python module object: an identity and its optional `__file__` attribute
(`none` models both a missing attribute and an explicit `None`). -/
structure Module where
  mid : Nat
  file : Option String
deriving DecidableEq, Repr

/-- The interpreter state the resolver mutates: `sys.path` and `sys.modules`
(the latter as a total lookup function from module names). -/
structure SysState where
  path : List String
  modules : String → Option Module

/-- `sys.modules[k] = v` (with `v = none` modelling `del sys.modules[k]`). -/
def setMod (f : String → Option Module) (k : String) (v : Option Module) :
    String → Option Module :=
  fun n => if n = k then v else f n

/-- Installed-distribution metadata: the file listing (relative path entries,
as `str(f)` renders them) and `locate_file`, turning an entry into a path
string. -/
structure Dist where
  files : List String
  locate : String → String

/-- Outcome of `importlib.metadata.distribution(name)`: a distribution,
`PackageNotFoundError`, or some other exception. -/
inductive DistLookup where
  | found (d : Dist)
  | notFound
  | raised (e : Nat)

/-- An import-machinery spec (a `spec_from_file_location` result that has a
usable loader), opaque beyond its identity. -/
structure LoadSpec where
  sid : Nat
deriving DecidableEq

/-- The ambient Python world the resolver calls into:
* `resolvePath`: `Path(s).resolve()` (`.error e` means the call raised `e`);
* `importSamgeo`: `importlib.import_module("samgeo")` run on an interpreter
  state, returning the module or raising, together with the state it leaves;
* `distribution`: `importlib.metadata.distribution`;
* `mkSpec init pkg`: `importlib.util.spec_from_file_location(alias, init,
  submodule_search_locations=[pkg])`, with `none` covering both a `None`
  spec and a spec whose loader is `None`;
* `moduleFromSpec`: `importlib.util.module_from_spec`;
* `execModule`: `spec.loader.exec_module(module)`, which may mutate the
  interpreter state and may raise;
* `selfFile`: this module's `__file__`;
* `executable`: `sys.executable` when the attribute exists;
* `vMajor`, `vMinor`, `vMicro`: `sys.version_info`. -/
structure Env where
  resolvePath : String → Except Nat CanonPath
  importSamgeo : SysState → Except Nat Module × SysState
  distribution : String → DistLookup
  mkSpec : CanonPath → CanonPath → Option LoadSpec
  moduleFromSpec : LoadSpec → Module
  execModule : LoadSpec → Module → SysState → Except Nat Unit × SysState
  selfFile : String
  executable : Option String
  vMajor : Nat
  vMinor : Nat
  vMicro : Nat

/-- `_is_module_from_dir(mod, directory)` (lines 27-34): `False` when
`__file__` is missing, `None` or empty, or when resolving it raises;
otherwise whether the resolved file is relative to the (already canonical)
directory. -/
def is_module_from_dir (env : Env) (mod : Module) (directory : CanonPath) : Bool :=
  match mod.file with
  | none => false
  | some f =>
      if f = "" then false
      else
        match env.resolvePath f with
        | .error _ => false
        | .ok cf => directory.isPrefixOf cf

/-- The comprehension
`[p for p in sys.path if Path(p).resolve() != plugin_parent.resolve()]`
(line 46): drop the entries that resolve to the plugin's parent directory;
raise (`none`) as soon as resolving an entry raises.  `plugin_parent` is
already canonical, so resolving it is the identity. -/
def filterPluginParent (env : Env) (pluginParent : CanonPath) :
    List String → Option (List String)
  | [] => some []
  | p :: ps =>
      match env.resolvePath p with
      | .error _ => none
      | .ok cp =>
          match filterPluginParent env pluginParent ps with
          | none => none
          | some rest => some (if cp = pluginParent then rest else p :: rest)

/-- The `finally` block of `_import_samgeo_without_plugin_shadow`
(lines 56-59): restore `sys.path`, and re-install the original
`sys.modules["samgeo"]` entry only when one existed before the call. -/
def restoreAfterShadow (origPath : List String) (origMod : Option Module)
    (s : SysState) : SysState :=
  let s1 : SysState := { s with path := origPath }
  match origMod with
  | some m => { s1 with modules := setMod s1.modules "samgeo" (some m) }
  | none => s1

/-- `_import_samgeo_without_plugin_shadow(plugin_pkg_dir)` (lines 37-59).
Every exception inside the `try` body is caught (`return None`), and the
`finally` block runs on every exit path. -/
def import_samgeo_without_plugin_shadow (env : Env) (pluginPkgDir : CanonPath)
    (s : SysState) : Option Module × SysState :=
  match filterPluginParent env pluginPkgDir.dropLast s.path with
  | none =>
      -- line 46 raised before `sys.path` was assigned: caught, then `finally`
      (none, restoreAfterShadow s.path (s.modules "samgeo") s)
  | some newPath =>
      let s1 : SysState := { s with path := newPath }
      let s2 : SysState :=
        match s1.modules "samgeo" with
        | some _ => { s1 with modules := setMod s1.modules "samgeo" none }
        | none => s1
      match env.importSamgeo s2 with
      | (.error _, s3) => (none, restoreAfterShadow s.path (s.modules "samgeo") s3)
      | (.ok imported, s3) =>
          if is_module_from_dir env imported pluginPkgDir then
            (none, restoreAfterShadow s.path (s.modules "samgeo") s3)
          else
            (some imported, restoreAfterShadow s.path (s.modules "samgeo") s3)

/-- Whether a distribution file entry matches (line 77):
`str(f).replace("\\", "/").endswith("samgeo/__init__.py")`, on the character
list of the string. -/
def matchesInit (f : String) : Bool :=
  ("samgeo/__init__.py".data).isSuffixOf
    (f.data.map fun c => if c = '\\' then '/' else c)

/-- The `for f in files: ... break` loop (lines 75-79): the first matching
entry, in enumeration order. -/
def findInit : List String → Option String
  | [] => none
  | f :: fs => if matchesInit f then some f else findInit fs

/-- `_load_external_samgeo_from_dist(dist_name)` (lines 62-102).  Only
`PackageNotFoundError` from the metadata lookup is caught; any other
exception (the lookup raising something else, `Path(...).resolve()` raising
at line 83, or `exec_module` raising at line 101) propagates (`.error`).
The freshly created module is registered under the alias *before* its code
is executed. -/
def load_external_samgeo_from_dist (env : Env) (distName : String)
    (s : SysState) : Except Nat (Option Module) × SysState :=
  match env.distribution distName with
  | .raised e => (.error e, s)
  | .notFound => (.ok none, s)
  | .found dist =>
      match findInit dist.files with
      | none => (.ok none, s)
      | some initRel =>
          match env.resolvePath (dist.locate initRel) with
          | .error e => (.error e, s)
          | .ok initPath =>
              match s.modules "samgeo_external" with
              | some existing => (.ok (some existing), s)
              | none =>
                  match env.mkSpec initPath initPath.dropLast with
                  | none => (.ok none, s)
                  | some spec =>
                      let module := env.moduleFromSpec spec
                      let s1 : SysState :=
                        { s with modules := setMod s.modules "samgeo_external" (some module) }
                      match env.execModule spec module s1 with
                      | (.error e, s2) => (.error e, s2)
                      | (.ok _, s2) => (.ok (some module), s2)

/-- `f"{sys.version_info.major}.{sys.version_info.minor}.{sys.version_info.micro}"`
(line 137). -/
def versionString (env : Env) : String :=
  toString env.vMajor ++ "." ++ toString env.vMinor ++ "." ++ toString env.vMicro

/-- `getattr(sys, "executable", "python")` (line 136). -/
def executableString (env : Env) : String :=
  env.executable.getD "python"

/-- The remediation part of the final error message (lines 142-145). -/
def remediationText : String :=
  "Fix: install the SamGeo Python package into *this same Python environment*.\n"
  ++ "In QGIS, open Python Console and run:\n"
  ++ "  import sys, subprocess\n"
  ++ "  subprocess.check_call([sys.executable, '-m', 'pip', 'install', '--user', 'samgeo'])\n"

/-- The message of the final `ImportError` (lines 138-145). -/
def resolution_message (env : Env) : String :=
  "SamGeo plugin could not import the external 'samgeo' library because the plugin "
  ++ "package name shadows it.\n\n"
  ++ "QGIS Python:\n  executable: " ++ executableString env
  ++ "\n  version: " ++ versionString env ++ "\n\n"
  ++ remediationText

/-- What `get_samgeo()` can raise: a propagated world exception, or the final
`ImportError` (the spec's `ResolutionError`) carrying its message. -/
inductive ResolveErr where
  | fromEnv (e : Nat)
  | resolutionError (msg : String)
deriving DecidableEq

/-- The resolver's full state: the interpreter state plus the module-level
`_CACHED` slot (line 24). -/
structure RState where
  sys : SysState
  cached : Option Module

/-- Strategy 1, the guarded body of lines 116-122: the normal import; the
module is accepted unless it comes from the plugin directory; any exception
is swallowed (`except Exception: pass`). -/
def strat1 (env : Env) (pluginDir : CanonPath) (s : SysState) :
    Option Module × SysState :=
  match env.importSamgeo s with
  | (.error _, s1) => (none, s1)
  | (.ok imported, s1) =>
      if is_module_from_dir env imported pluginDir then (none, s1)
      else (some imported, s1)

/-- Strategies 2 and 3 and the final raise (lines 124-146), entered with the
cache empty.  A success of any strategy is cached; an exception escaping
strategy 3 propagates without touching the cache. -/
def get_samgeo_rest (env : Env) (pluginDir : CanonPath) (s : SysState) :
    Except ResolveErr Module × RState :=
  match import_samgeo_without_plugin_shadow env pluginDir s with
  | (some m, s2) => (.ok m, ⟨s2, some m⟩)
  | (none, s2) =>
      match load_external_samgeo_from_dist env "samgeo" s2 with
      | (.error e, s3) => (.error (.fromEnv e), ⟨s3, none⟩)
      | (.ok (some m), s3) => (.ok m, ⟨s3, some m⟩)
      | (.ok none, s3) =>
          match load_external_samgeo_from_dist env "samgeo-py" s3 with
          | (.error e, s4) => (.error (.fromEnv e), ⟨s4, none⟩)
          | (.ok (some m), s4) => (.ok m, ⟨s4, some m⟩)
          | (.ok none, s4) =>
              (.error (.resolutionError (resolution_message env)), ⟨s4, none⟩)

/-- `get_samgeo()` (lines 105-146): the cached fast path, then
`Path(__file__).resolve().parent` (line 113, uncaught if resolving raises),
then the three strategies in order, caching any success. -/
def get_samgeo (env : Env) (st : RState) : Except ResolveErr Module × RState :=
  match st.cached with
  | some m => (.ok m, st)
  | none =>
      match env.resolvePath env.selfFile with
      | .error e => (.error (.fromEnv e), st)
      | .ok selfCanon =>
          match strat1 env selfCanon.dropLast st.sys with
          | (some m, s1) => (.ok m, ⟨s1, some m⟩)
          | (none, s1) => get_samgeo_rest env selfCanon.dropLast s1

/-- `t` occurs as a contiguous substring of `s`. -/
def strContains (s t : String) : Prop :=
  List.IsInfix t.data s.data

/-- All three strategies fail in sequence from interpreter state `s`
(each one run on the state the previous attempt left behind), without any
of them raising an uncaught exception. -/
def all_strategies_fail (env : Env) (pd : CanonPath) (s : SysState) : Prop :=
  (strat1 env pd s).1 = none ∧
  (import_samgeo_without_plugin_shadow env pd (strat1 env pd s).2).1 = none ∧
  (load_external_samgeo_from_dist env "samgeo"
      (import_samgeo_without_plugin_shadow env pd (strat1 env pd s).2).2).1 = .ok none ∧
  (load_external_samgeo_from_dist env "samgeo-py"
      (load_external_samgeo_from_dist env "samgeo"
        (import_samgeo_without_plugin_shadow env pd (strat1 env pd s).2).2).2).1 = .ok none

/-- The distribution lookup for `nm` yields a file entry matching the
initializer suffix (the "metadata yields a matching initializer file"
condition of strategy 3). -/
def metadataYieldsInit (env : Env) (nm : String) : Bool :=
  match env.distribution nm with
  | .found d => (findInit d.files).isSome
  | _ => false

/-! ## Concrete fixtures

A small world used to exercise the resolver on concrete inputs: the plugin
package lives at `/plug/samgeo` (so its parent directory is `/plug`), the
interpreter's `sys.path` holds one entry resolving elsewhere, and the real
library lives under `/site`. -/

def Mext : Module := ⟨1, some "ext.py"⟩

def Msh : Module := ⟨2, some "sh.py"⟩

def Mnone : Module := ⟨3, none⟩

def Morig : Module := ⟨5, none⟩

def Mfresh : Module := ⟨9, none⟩

def cResolve : String → Except Nat CanonPath := fun p =>
  if p = "self.py" then .ok ["plug", "samgeo", "lib.py"]
  else if p = "sp" then .ok ["site"]
  else if p = "ext.py" then .ok ["site", "samgeo", "init.py"]
  else if p = "sh.py" then .ok ["plug", "samgeo", "init.py"]
  else if p = "loc.py" then .ok ["site", "samgeo", "init.py"]
  else if p = "loc2.py" then .ok ["site2", "samgeo", "init.py"]
  else .error 0

def noMods : String → Option Module := fun _ => none

def cDist : Dist := ⟨["samgeo/__init__.py"], fun _ => "loc.py"⟩

def cDist2 : Dist := ⟨["samgeo/__init__.py"], fun _ => "loc2.py"⟩

def cSpec : LoadSpec := ⟨0⟩

/-- A world in which every strategy comes up empty: the import raises, no
distribution is installed. -/
def failEnv : Env where
  resolvePath := cResolve
  importSamgeo := fun s => (.error 1, s)
  distribution := fun _ => .notFound
  mkSpec := fun _ _ => none
  moduleFromSpec := fun _ => Mfresh
  execModule := fun _ _ s => (.ok (), s)
  selfFile := "self.py"
  executable := some "/usr/bin/python3"
  vMajor := 3
  vMinor := 12
  vMicro := 1

def s0 : SysState := ⟨["sp"], noMods⟩

def st0 : RState := ⟨s0, none⟩

/-- A world whose import succeeds with the external module and, as
`importlib.import_module` does on success, records it in `sys.modules`
under the imported name. -/
def addImportEnv : Env := { failEnv with
  importSamgeo := fun s =>
    (.ok Mext, { s with modules := setMod s.modules "samgeo" (some Mext) }) }

/-! ## C1: restoration after the path-suppressed retry -/

theorem restoreAfterShadow_path (op : List String) (om : Option Module)
    (s : SysState) : (restoreAfterShadow op om s).path = op := by
  cases om <;> rfl

theorem restoreAfterShadow_mod (op : List String) (m : Module) (s : SysState) :
    (restoreAfterShadow op (some m) s).modules "samgeo" = some m := by
  simp [restoreAfterShadow, setMod]

theorem shadow_snd_is_restore (env : Env) (pd : CanonPath) (s : SysState) :
    ∃ s', (import_samgeo_without_plugin_shadow env pd s).2
      = restoreAfterShadow s.path (s.modules "samgeo") s' := by
  unfold import_samgeo_without_plugin_shadow
  split
  · exact ⟨s, rfl⟩
  · dsimp only
    repeat' split
    all_goals exact ⟨_, rfl⟩

/-- C1 (amended): after `_import_samgeo_without_plugin_shadow` runs —
success, failure or exception — `sys.path` is always restored to its exact
pre-call value, and the `sys.modules["samgeo"]` entry is restored whenever
one existed before the call.  (When no entry existed, an entry created by
the import may remain: see `c1_counterexample`.) -/
theorem c1_scoped_restore (env : Env) (pd : CanonPath) (s : SysState) :
    ((import_samgeo_without_plugin_shadow env pd s).2).path = s.path ∧
    (∀ m : Module, s.modules "samgeo" = some m →
      ((import_samgeo_without_plugin_shadow env pd s).2).modules "samgeo" = some m) := by
  obtain ⟨s', h⟩ := shadow_snd_is_restore env pd s
  rw [h]
  refine ⟨restoreAfterShadow_path .., fun m hm => ?_⟩
  rw [hm]
  exact restoreAfterShadow_mod ..

/-- C1 witness: on the concrete world, with a pre-existing
`sys.modules["samgeo"]` entry, both `sys.path` and that entry are restored. -/
theorem c1_scoped_restore_witness :
    ((import_samgeo_without_plugin_shadow addImportEnv ["plug", "samgeo"]
        ⟨["sp"], setMod noMods "samgeo" (some Morig)⟩).2).path = ["sp"] ∧
    ((import_samgeo_without_plugin_shadow addImportEnv ["plug", "samgeo"]
        ⟨["sp"], setMod noMods "samgeo" (some Morig)⟩).2).modules "samgeo" = some Morig :=
  ⟨(c1_scoped_restore addImportEnv ["plug", "samgeo"] _).1,
   (c1_scoped_restore addImportEnv ["plug", "samgeo"] _).2 Morig (by simp [setMod])⟩

/-- C1 counterexample: with no pre-call `sys.modules["samgeo"]` entry, the
entry created by the import survives the `finally` block, so the global
module cache for the logical name is *not* restored to its pre-call
(absent) state. -/
theorem c1_counterexample :
    s0.modules "samgeo" = none ∧
    ((import_samgeo_without_plugin_shadow addImportEnv ["plug", "samgeo"] s0).2).modules
      "samgeo" = some Mext := by
  exact ⟨rfl, by decide⟩

/-! ## C2: exception policy of the three strategies -/

/-- A world where strategies 1 and 2 fail (the import raises), the `samgeo`
distribution is found with a matching initializer entry, and executing the
loaded module raises exception `7`. -/
def distExecFailEnv : Env := { failEnv with
  distribution := fun n => if n = "samgeo" then .found cDist else .notFound
  mkSpec := fun _ _ => some cSpec
  execModule := fun _ _ s => (.error 7, s) }

/-- C2 (amended): an exception inside strategy 1 is swallowed and control
falls through to the rest of the pipeline (strategy 2 swallows its
exceptions by construction); but in strategy 3 only `PackageNotFoundError`
from the metadata lookup is caught, so any other exception raised there —
for instance by `exec_module` or while resolving the initializer path —
propagates out of `get_samgeo` as that exception, not as the final
`ResolutionError`. -/
theorem c2_exception_policy (env : Env) (st : RState) (sc : CanonPath)
    (e1 : Nat) (s1 : SysState)
    (h0 : st.cached = none)
    (h1 : env.resolvePath env.selfFile = .ok sc)
    (h2 : env.importSamgeo st.sys = (.error e1, s1)) :
    get_samgeo env st = get_samgeo_rest env sc.dropLast s1 ∧
    (∀ e s2 s3,
      import_samgeo_without_plugin_shadow env sc.dropLast s1 = (none, s2) →
      load_external_samgeo_from_dist env "samgeo" s2 = (.error e, s3) →
      get_samgeo env st = (.error (.fromEnv e), ⟨s3, none⟩)) := by
  have hs : strat1 env sc.dropLast st.sys = (none, s1) := by
    unfold strat1
    rw [h2]
  have hmain : get_samgeo env st = get_samgeo_rest env sc.dropLast s1 := by
    simp only [get_samgeo, h0, h1, hs]
  refine ⟨hmain, fun e s2 s3 h3 h4 => ?_⟩
  rw [hmain]
  simp only [get_samgeo_rest, h3, h4]

/-- C2 witness: on the concrete world the import's exception is swallowed,
and the `exec_module` exception `7` of strategy 3 escapes `get_samgeo`,
leaving the partially initialized module registered under the alias. -/
theorem c2_exception_policy_witness :
    get_samgeo distExecFailEnv st0
      = (.error (.fromEnv 7),
         ⟨⟨["sp"], setMod noMods "samgeo_external" (some Mfresh)⟩, none⟩) :=
  (c2_exception_policy distExecFailEnv st0 ["plug", "samgeo", "lib.py"] 1 s0
      rfl rfl rfl).2
    7 s0 ⟨["sp"], setMod noMods "samgeo_external" (some Mfresh)⟩ rfl rfl

/-- C2 counterexample: an exception during strategy 3's module execution is
*not* caught: `get_samgeo` propagates the world exception `7` instead of
falling through, and the propagated error is not the final
`ResolutionError`. -/
theorem c2_counterexample :
    (get_samgeo distExecFailEnv st0).1 = .error (.fromEnv 7) ∧
    (get_samgeo distExecFailEnv st0).1
      ≠ .error (.resolutionError (resolution_message distExecFailEnv)) := by
  have h1 : (get_samgeo distExecFailEnv st0).1 = .error (.fromEnv 7) := by rfl
  refine ⟨h1, ?_⟩
  rw [h1]
  simp

/-! ## C3: the cache slot, once populated, is final -/

theorem get_samgeo_rest_ok_cached (env : Env) (pd : CanonPath) (s : SysState)
    (m : Module) (st' : RState)
    (h : get_samgeo_rest env pd s = (.ok m, st')) : st'.cached = some m := by
  unfold get_samgeo_rest at h
  repeat' split at h
  all_goals simp_all
  all_goals (obtain ⟨h1, h2⟩ := h; subst h2; simp [h1])

theorem get_samgeo_ok_cached (env : Env) (st : RState) (m : Module) (st' : RState)
    (h : get_samgeo env st = (.ok m, st')) : st'.cached = some m := by
  unfold get_samgeo at h
  repeat' split at h
  all_goals try exact get_samgeo_rest_ok_cached _ _ _ _ _ h
  all_goals simp_all
  all_goals (obtain ⟨h1, h2⟩ := h; subst h2; simp [h1])

/-- C3: once a call to `get_samgeo` succeeds with handle `m` and leaves
state `st'`, every later call returns the identical handle and the identical
state — no matter what the ambient world `envB` now looks like, so no
resolution work is performed and the cache slot is never invalidated or
overwritten. -/
theorem c3_cached_identity (env : Env) (st : RState) (m : Module) (st' : RState)
    (h : get_samgeo env st = (.ok m, st')) :
    ∀ envB : Env, get_samgeo envB st' = (.ok m, st') := by
  have hc := get_samgeo_ok_cached env st m st' h
  intro envB
  simp only [get_samgeo, hc]

/-- A world whose import immediately returns the external module without
touching the interpreter state. -/
def okImportEnv : Env := { failEnv with importSamgeo := fun s => (.ok Mext, s) }

/-- C3 witness: after a concrete first resolution through strategy 1, a
second call — here under the `failEnv` world in which every strategy would
fail — still returns the identical cached handle and state. -/
theorem c3_cached_identity_witness :
    get_samgeo failEnv ⟨s0, some Mext⟩ = (.ok Mext, ⟨s0, some Mext⟩) :=
  c3_cached_identity okImportEnv st0 Mext ⟨s0, some Mext⟩ (by rfl) failEnv

/-! ## C4: the final ResolutionError and its message -/

theorem resolution_message_contains_exe (env : Env) :
    strContains (resolution_message env) (executableString env) := by
  refine ⟨("SamGeo plugin could not import the external 'samgeo' library because the plugin "
      ++ "package name shadows it.\n\n" ++ "QGIS Python:\n  executable: ").data,
    ("\n  version: " ++ versionString env ++ "\n\n" ++ remediationText).data, ?_⟩
  simp only [resolution_message, String.data_append, List.append_assoc]

theorem resolution_message_contains_ver (env : Env) :
    strContains (resolution_message env) (versionString env) := by
  refine ⟨("SamGeo plugin could not import the external 'samgeo' library because the plugin "
      ++ "package name shadows it.\n\n" ++ "QGIS Python:\n  executable: "
      ++ executableString env ++ "\n  version: ").data,
    ("\n\n" ++ remediationText).data, ?_⟩
  simp only [resolution_message, String.data_append, List.append_assoc]

theorem resolution_message_contains_fix (env : Env) :
    strContains (resolution_message env) remediationText := by
  refine ⟨("SamGeo plugin could not import the external 'samgeo' library because the plugin "
      ++ "package name shadows it.\n\n" ++ "QGIS Python:\n  executable: "
      ++ executableString env ++ "\n  version: " ++ versionString env ++ "\n\n").data,
    [], ?_⟩
  simp only [resolution_message, String.data_append, List.append_assoc, List.append_nil]

theorem get_samgeo_resolution_iff (env : Env) (st : RState) (sc : CanonPath)
    (h0 : st.cached = none) (h1 : env.resolvePath env.selfFile = .ok sc) :
    (∀ msg, (get_samgeo env st).1 = .error (.resolutionError msg) →
      msg = resolution_message env) ∧
    ((∃ msg, (get_samgeo env st).1 = .error (.resolutionError msg)) ↔
      all_strategies_fail env sc.dropLast st.sys) := by
  unfold all_strategies_fail
  rcases hA : strat1 env sc.dropLast st.sys with ⟨o1, s1⟩
  dsimp only
  cases o1 with
  | some m =>
      have hg : get_samgeo env st = (.ok m, ⟨s1, some m⟩) := by
        simp only [get_samgeo, h0, h1, hA]
      rw [hg]
      refine ⟨fun msg hmsg => by simp at hmsg, ?_⟩
      constructor
      · rintro ⟨msg, hmsg⟩
        simp at hmsg
      · rintro ⟨hf, -⟩
        simp at hf
  | none =>
      have hg : get_samgeo env st = get_samgeo_rest env sc.dropLast s1 := by
        simp only [get_samgeo, h0, h1, hA]
      rw [hg]
      rcases hB : import_samgeo_without_plugin_shadow env sc.dropLast s1 with ⟨o2, s2⟩
      dsimp only
      cases o2 with
      | some m =>
          have hr : get_samgeo_rest env sc.dropLast s1 = (.ok m, ⟨s2, some m⟩) := by
            simp only [get_samgeo_rest, hB]
          rw [hr]
          refine ⟨fun msg hmsg => by simp at hmsg, ?_⟩
          constructor
          · rintro ⟨msg, hmsg⟩
            simp at hmsg
          · rintro ⟨-, hf, -⟩
            simp at hf
      | none =>
          rcases hC : load_external_samgeo_from_dist env "samgeo" s2 with ⟨r3, s3⟩
          dsimp only
          cases r3 with
          | error e =>
              have hr : get_samgeo_rest env sc.dropLast s1
                  = (.error (.fromEnv e), ⟨s3, none⟩) := by
                simp only [get_samgeo_rest, hB, hC]
              rw [hr]
              refine ⟨fun msg hmsg => by simp at hmsg, ?_⟩
              constructor
              · rintro ⟨msg, hmsg⟩
                simp at hmsg
              · rintro ⟨-, -, hf, -⟩
                simp at hf
          | ok o3 =>
              cases o3 with
              | some m =>
                  have hr : get_samgeo_rest env sc.dropLast s1 = (.ok m, ⟨s3, some m⟩) := by
                    simp only [get_samgeo_rest, hB, hC]
                  rw [hr]
                  refine ⟨fun msg hmsg => by simp at hmsg, ?_⟩
                  constructor
                  · rintro ⟨msg, hmsg⟩
                    simp at hmsg
                  · rintro ⟨-, -, hf, -⟩
                    simp at hf
              | none =>
                  rcases hD : load_external_samgeo_from_dist env "samgeo-py" s3 with ⟨r4, s4⟩
                  dsimp only
                  cases r4 with
                  | error e =>
                      have hr : get_samgeo_rest env sc.dropLast s1
                          = (.error (.fromEnv e), ⟨s4, none⟩) := by
                        simp only [get_samgeo_rest, hB, hC, hD]
                      rw [hr]
                      refine ⟨fun msg hmsg => by simp at hmsg, ?_⟩
                      constructor
                      · rintro ⟨msg, hmsg⟩
                        simp at hmsg
                      · rintro ⟨-, -, -, hf⟩
                        simp at hf
                  | ok o4 =>
                      cases o4 with
                      | some m =>
                          have hr : get_samgeo_rest env sc.dropLast s1
                              = (.ok m, ⟨s4, some m⟩) := by
                            simp only [get_samgeo_rest, hB, hC, hD]
                          rw [hr]
                          refine ⟨fun msg hmsg => by simp at hmsg, ?_⟩
                          constructor
                          · rintro ⟨msg, hmsg⟩
                            simp at hmsg
                          · rintro ⟨-, -, -, hf⟩
                            simp at hf
                      | none =>
                          have hr : get_samgeo_rest env sc.dropLast s1
                              = (.error (.resolutionError (resolution_message env)),
                                 ⟨s4, none⟩) := by
                            simp only [get_samgeo_rest, hB, hC, hD]
                          rw [hr]
                          refine ⟨fun msg hmsg => ?_, ?_⟩
                          · simp at hmsg
                            exact hmsg.symm
                          · constructor
                            · intro _
                              exact ⟨rfl, rfl, rfl, rfl⟩
                            · intro _
                              exact ⟨resolution_message env, rfl⟩

/-- C4: `get_samgeo` raises the final `ResolutionError` (the concluding
`ImportError`) exactly when the three strategies all fail in sequence; the
raised message is the fixed diagnostic text, and that text contains the
interpreter's executable path, its version triple and the remediation
instructions. -/
theorem c4_resolution_error (env : Env) (st : RState) (sc : CanonPath)
    (h0 : st.cached = none) (h1 : env.resolvePath env.selfFile = .ok sc) :
    ((∃ msg, (get_samgeo env st).1 = .error (.resolutionError msg)) ↔
      all_strategies_fail env sc.dropLast st.sys) ∧
    (∀ msg, (get_samgeo env st).1 = .error (.resolutionError msg) →
      msg = resolution_message env) ∧
    strContains (resolution_message env) (executableString env) ∧
    strContains (resolution_message env) (versionString env) ∧
    strContains (resolution_message env) remediationText :=
  ⟨(get_samgeo_resolution_iff env st sc h0 h1).2,
   (get_samgeo_resolution_iff env st sc h0 h1).1,
   resolution_message_contains_exe env,
   resolution_message_contains_ver env,
   resolution_message_contains_fix env⟩

/-- C4 witness: in the concrete world where the import raises and no
distribution is installed, `get_samgeo` raises the `ResolutionError` with
the diagnostic message. -/
theorem c4_resolution_error_witness :
    (get_samgeo failEnv st0).1
      = .error (.resolutionError (resolution_message failEnv)) := by
  have h := c4_resolution_error failEnv st0 ["plug", "samgeo", "lib.py"] rfl rfl
  obtain ⟨msg, hmsg⟩ := h.1.mpr ⟨rfl, rfl, rfl, rfl⟩
  rw [hmsg, h.2.1 msg hmsg]

/-! ## C5: strategy 1's shadow check -/

/-- C5: in strategy 1, when the normal import succeeds with a module whose
origin file resolves to `cf`, the module is rejected — not cached, control
falling through to the rest of the pipeline — exactly when `cf` is a
path-prefix descendant of the plugin package directory; otherwise it is
accepted and cached. -/
theorem c5_strategy1_shadow_check (env : Env) (st : RState) (sc : CanonPath)
    (m : Module) (s1 : SysState) (f : String) (cf : CanonPath)
    (h0 : st.cached = none) (h1 : env.resolvePath env.selfFile = .ok sc)
    (h2 : env.importSamgeo st.sys = (.ok m, s1))
    (h3 : m.file = some f) (h4 : f ≠ "") (h5 : env.resolvePath f = .ok cf) :
    get_samgeo env st =
      if sc.dropLast.isPrefixOf cf then get_samgeo_rest env sc.dropLast s1
      else (.ok m, ⟨s1, some m⟩) := by
  have hd : is_module_from_dir env m sc.dropLast = sc.dropLast.isPrefixOf cf := by
    simp only [is_module_from_dir, h3, h5]
    rw [if_neg h4]
  cases hb : sc.dropLast.isPrefixOf cf with
  | false =>
      have hs1 : strat1 env sc.dropLast st.sys = (some m, s1) := by
        simp only [strat1, h2, hd, hb, Bool.false_eq_true, if_false]
      simp only [get_samgeo, h0, h1, hs1, Bool.false_eq_true, if_false]
  | true =>
      have hs1 : strat1 env sc.dropLast st.sys = (none, s1) := by
        simp only [strat1, h2, hd, hb, if_true]
      simp only [get_samgeo, h0, h1, hs1, if_true]

/-- A world whose import returns a module originating inside the plugin
package directory. -/
def shadowEnv : Env := { failEnv with importSamgeo := fun s => (.ok Msh, s) }

/-- C5 witness: the concrete shadowed module (origin `/plug/samgeo/init.py`,
inside the plugin directory `/plug/samgeo`) is rejected by strategy 1 and
control falls through to the rest of the pipeline. -/
theorem c5_strategy1_shadow_check_witness :
    get_samgeo shadowEnv st0 = get_samgeo_rest shadowEnv ["plug", "samgeo"] s0 := by
  have h := c5_strategy1_shadow_check shadowEnv st0 ["plug", "samgeo", "lib.py"]
    Msh s0 "sh.py" ["plug", "samgeo", "init.py"] rfl rfl rfl rfl (by decide) rfl
  rw [h]
  rfl

/-! ## C6: strategy 3 registers under the alias only, and reuses it -/

/-- C6: provided module execution does not itself touch the `"samgeo"` or
`"samgeo_external"` entries of the module cache, a strategy-3 load (i) never
changes the entry under the logical name `"samgeo"`, (ii) registers any
module it returns under the alias `"samgeo_external"`, and (iii) when an
alias entry already exists and the metadata lookup yields an initializer
file, it returns that existing entry with the interpreter state untouched —
no reload, no re-execution. -/
theorem c6_alias_registration (env : Env) (nm : String) (s : SysState)
    (hpres : ∀ sp mo s2,
      ((env.execModule sp mo s2).2).modules "samgeo" = s2.modules "samgeo" ∧
      ((env.execModule sp mo s2).2).modules "samgeo_external"
        = s2.modules "samgeo_external") :
    ((load_external_samgeo_from_dist env nm s).2).modules "samgeo"
      = s.modules "samgeo" ∧
    (∀ m, (load_external_samgeo_from_dist env nm s).1 = .ok (some m) →
      ((load_external_samgeo_from_dist env nm s).2).modules "samgeo_external"
        = some m) ∧
    (∀ ex, s.modules "samgeo_external" = some ex →
      ∀ d ir ip, env.distribution nm = .found d → findInit d.files = some ir →
        env.resolvePath (d.locate ir) = .ok ip →
        load_external_samgeo_from_dist env nm s = (.ok (some ex), s)) := by
  refine ⟨?_, ?_, ?_⟩
  · unfold load_external_samgeo_from_dist
    cases hd : env.distribution nm with
    | raised e => rfl
    | notFound => rfl
    | found dist =>
        dsimp only
        cases hf : findInit dist.files with
        | none => rfl
        | some ir =>
            dsimp only
            cases hip : env.resolvePath (dist.locate ir) with
            | error e => rfl
            | ok ip =>
                dsimp only
                cases hex : s.modules "samgeo_external" with
                | some ex => rfl
                | none =>
                    dsimp only
                    cases hsp : env.mkSpec ip ip.dropLast with
                    | none => rfl
                    | some spec =>
                        dsimp only
                        rcases hee : env.execModule spec (env.moduleFromSpec spec) { s with modules := setMod s.modules "samgeo_external" (some (env.moduleFromSpec spec)) } with ⟨r, s2⟩
                        have hp := (hpres spec (env.moduleFromSpec spec) { s with modules := setMod s.modules "samgeo_external" (some (env.moduleFromSpec spec)) }).1
                        rw [hee] at hp
                        cases r with
                        | error e => exact hp.trans (by simp [setMod])
                        | ok u => exact hp.trans (by simp [setMod])
  · unfold load_external_samgeo_from_dist
    cases hd : env.distribution nm with
    | raised e => intro m hm; simp at hm
    | notFound => intro m hm; simp at hm
    | found dist =>
        dsimp only
        cases hf : findInit dist.files with
        | none => intro m hm; simp at hm
        | some ir =>
            dsimp only
            cases hip : env.resolvePath (dist.locate ir) with
            | error e => intro m hm; simp at hm
            | ok ip =>
                dsimp only
                cases hex : s.modules "samgeo_external" with
                | some ex =>
                    intro m hm
                    simp at hm
                    dsimp only
                    rw [hex]
                    simp [hm]
                | none =>
                    dsimp only
                    cases hsp : env.mkSpec ip ip.dropLast with
                    | none => intro m hm; simp at hm
                    | some spec =>
                        dsimp only
                        rcases hee : env.execModule spec (env.moduleFromSpec spec) { s with modules := setMod s.modules "samgeo_external" (some (env.moduleFromSpec spec)) } with ⟨r, s2⟩
                        have hp := (hpres spec (env.moduleFromSpec spec) { s with modules := setMod s.modules "samgeo_external" (some (env.moduleFromSpec spec)) }).2
                        rw [hee] at hp
                        cases r with
                        | error e => intro m hm; simp at hm
                        | ok u =>
                            intro m hm
                            simp at hm
                            rw [hp]
                            simp [setMod, hm]
  · intro ex hex d ir ip hd hf hip
    simp only [load_external_samgeo_from_dist, hd, hf, hip, hex]

/-- A world where strategies 1 and 2 fail, the `samgeo` distribution is
found with a matching initializer entry, and module execution succeeds. -/
def distOkEnv : Env := { failEnv with
  distribution := fun n => if n = "samgeo" then .found cDist else .notFound
  mkSpec := fun _ _ => some cSpec }

/-- C6 witness: with an alias entry already registered, a strategy-3 load on
the concrete world returns that entry and leaves the interpreter state
untouched. -/
theorem c6_alias_registration_witness :
    load_external_samgeo_from_dist distOkEnv "samgeo"
        ⟨["sp"], setMod noMods "samgeo_external" (some Mext)⟩
      = (.ok (some Mext), ⟨["sp"], setMod noMods "samgeo_external" (some Mext)⟩) :=
  (c6_alias_registration distOkEnv "samgeo"
      ⟨["sp"], setMod noMods "samgeo_external" (some Mext)⟩
      (fun _ _ _ => ⟨rfl, rfl⟩)).2.2 Mext
    (by simp [setMod]) cDist "samgeo/__init__.py" ["site", "samgeo", "init.py"]
    rfl (by decide) rfl

/-! ## C7: strategy 3's candidate order -/

theorem load_external_congr_distribution (env : Env) (dl : String → DistLookup)
    (nm : String) (s : SysState) (h : dl nm = env.distribution nm) :
    load_external_samgeo_from_dist { env with distribution := dl } nm s
      = load_external_samgeo_from_dist env nm s := by
  unfold load_external_samgeo_from_dist
  rw [show ({ env with distribution := dl } : Env).distribution nm
      = env.distribution nm from h]

theorem filterPluginParent_congr_distribution (env : Env)
    (dl : String → DistLookup) (pp : CanonPath) (l : List String) :
    filterPluginParent { env with distribution := dl } pp l
      = filterPluginParent env pp l := by
  induction l with
  | nil => rfl
  | cons p ps ih => simp only [filterPluginParent, ih]

theorem shadow_congr_distribution (env : Env) (dl : String → DistLookup)
    (pd : CanonPath) (s : SysState) :
    import_samgeo_without_plugin_shadow { env with distribution := dl } pd s
      = import_samgeo_without_plugin_shadow env pd s := by
  unfold import_samgeo_without_plugin_shadow
  rw [filterPluginParent_congr_distribution]
  rfl

/-- C7 (amended): strategy 3 tries exactly the two candidates `"samgeo"`
then `"samgeo-py"`, in that order; the first candidate whose *load* yields a
module wins, and the second candidate's distribution is then never consulted
(the result is unchanged under any reinterpretation of the `"samgeo-py"`
lookup).  A candidate whose metadata yields a matching initializer file can
still fail to load — e.g. when spec creation fails — and then the second
candidate is consulted: see `c7_counterexample`. -/
theorem c7_candidate_order (env : Env) (st : RState) (sc : CanonPath)
    (s1 s2 s3 : SysState) (m : Module)
    (h0 : st.cached = none) (h1 : env.resolvePath env.selfFile = .ok sc)
    (h2 : strat1 env sc.dropLast st.sys = (none, s1))
    (h3 : import_samgeo_without_plugin_shadow env sc.dropLast s1 = (none, s2))
    (h4 : load_external_samgeo_from_dist env "samgeo" s2 = (.ok (some m), s3)) :
    get_samgeo env st = (.ok m, ⟨s3, some m⟩) ∧
    (∀ dl : String → DistLookup, dl "samgeo" = env.distribution "samgeo" →
      get_samgeo { env with distribution := dl } st = (.ok m, ⟨s3, some m⟩)) := by
  constructor
  · simp only [get_samgeo, h0, h1, h2, get_samgeo_rest, h3, h4]
  · intro dl hdl
    have h2b : strat1 { env with distribution := dl } sc.dropLast st.sys
        = (none, s1) := h2
    have h3b : import_samgeo_without_plugin_shadow { env with distribution := dl }
        sc.dropLast s1 = (none, s2) := by
      rw [shadow_congr_distribution]
      exact h3
    have h4b : load_external_samgeo_from_dist { env with distribution := dl }
        "samgeo" s2 = (.ok (some m), s3) := by
      rw [load_external_congr_distribution env dl "samgeo" s2 hdl]
      exact h4
    simp only [get_samgeo, h0, h1, h2b, get_samgeo_rest, h3b, h4b]

/-- C7 witness: with the first candidate loading successfully in the
concrete world, the result stands even when the `"samgeo-py"` lookup is
replaced by one that would raise — the second candidate is not consulted. -/
theorem c7_candidate_order_witness :
    get_samgeo
        { distOkEnv with distribution := fun n =>
            if n = "samgeo" then .found cDist else .raised 99 } st0
      = (.ok Mfresh,
         ⟨⟨["sp"], setMod noMods "samgeo_external" (some Mfresh)⟩, some Mfresh⟩) :=
  (c7_candidate_order distOkEnv st0 ["plug", "samgeo", "lib.py"] s0 s0
      ⟨["sp"], setMod noMods "samgeo_external" (some Mfresh)⟩ Mfresh
      rfl rfl rfl rfl (by rfl)).2
    (fun n => if n = "samgeo" then .found cDist else .raised 99) rfl

/-- A world in which the `samgeo` distribution is present *with a matching
initializer file* but spec creation fails for its initializer path, while
the `samgeo-py` distribution is present and loads fine. -/
def c7Env : Env := { failEnv with
  distribution := fun n =>
    if n = "samgeo" then .found cDist
    else if n = "samgeo-py" then .found cDist2 else .notFound
  mkSpec := fun ip _ =>
    if ip = ["site2", "samgeo", "init.py"] then some cSpec else none }

/-- `c7Env` with the `samgeo-py` distribution removed. -/
def c7EnvA : Env := { c7Env with
  distribution := fun n => if n = "samgeo" then .found cDist else .notFound }

/-- C7 counterexample: in `c7Env` the first candidate's metadata yields a
matching initializer file, yet resolution succeeds with the module loaded
from the *second* candidate; removing the second candidate's distribution
(`c7EnvA`) changes the outcome to the final `ResolutionError`.  So the
second candidate is consulted, and the first does not win, even though the
first candidate's metadata yielded a matching initializer file. -/
theorem c7_counterexample :
    metadataYieldsInit c7Env "samgeo" = true ∧
    (get_samgeo c7Env st0).1 = .ok Mfresh ∧
    (get_samgeo c7EnvA st0).1
      = .error (.resolutionError (resolution_message c7EnvA)) := by
  refine ⟨by decide, by rfl, by rfl⟩

/-! ## C8: the file-listing scan -/

/-- C8: the strategy-3 scan of a distribution's file listing returns exactly
the first entry, in enumeration order, that matches — where an entry matches
iff its backslash-normalized path ends with `samgeo/__init__.py`
(`matchesInit`) — and returns nothing when no entry matches. -/
theorem c8_first_match (files : List String) :
    (∀ f, findInit files = some f →
      matchesInit f = true ∧
      ∃ pre post, files = pre ++ f :: post ∧ ∀ g ∈ pre, matchesInit g = false) ∧
    (findInit files = none → ∀ g ∈ files, matchesInit g = false) := by
  induction files with
  | nil =>
      exact ⟨fun f hf => by simp [findInit] at hf, fun _ g hg => by simp at hg⟩
  | cons a fs ih =>
      constructor
      · intro f hf
        by_cases ha : matchesInit a = true
        · rw [findInit, if_pos ha] at hf
          injection hf with hf
          subst hf
          exact ⟨ha, [], fs, rfl, by simp⟩
        · rw [findInit, if_neg ha] at hf
          obtain ⟨hm, pre, post, hsplit, hpre⟩ := ih.1 f hf
          refine ⟨hm, a :: pre, post, by rw [hsplit]; rfl, ?_⟩
          intro g hg
          rcases List.mem_cons.mp hg with hg | hg
          · rw [hg]
            simp only [Bool.not_eq_true] at ha
            exact ha
          · exact hpre g hg
      · intro hn g hg
        by_cases ha : matchesInit a = true
        · rw [findInit, if_pos ha] at hn
          cases hn
        · rw [findInit, if_neg ha] at hn
          rcases List.mem_cons.mp hg with hg | hg
          · rw [hg]
            simp only [Bool.not_eq_true] at ha
            exact ha
          · exact ih.2 hn g hg

/-- C8 witness: on a concrete listing — a non-matching entry first, then a
backslash-normalized match, then a second match — the scan returns the
first matching entry. -/
theorem c8_first_match_witness :
    findInit ["docs/readme.txt", "x\\samgeo\\__init__.py", "b/samgeo/__init__.py"]
      = some "x\\samgeo\\__init__.py" ∧
    matchesInit "x\\samgeo\\__init__.py" = true :=
  ⟨by decide,
   ((c8_first_match
        ["docs/readme.txt", "x\\samgeo\\__init__.py", "b/samgeo/__init__.py"]).1
      "x\\samgeo\\__init__.py" (by decide)).1⟩

/-! ## C9: modules without a usable origin are never "shadowed" -/

/-- C9: a module whose `__file__` is missing or `None`, is empty, or whose
path resolution raises, is reported as not shadowed by
`_is_module_from_dir` for every directory; consequently strategy 1 accepts
and caches such a module with no filesystem-location comparison. -/
theorem c9_no_origin_accepted (env : Env) (st : RState) (sc : CanonPath)
    (m : Module) (s1 : SysState)
    (h0 : st.cached = none) (h1 : env.resolvePath env.selfFile = .ok sc)
    (h2 : env.importSamgeo st.sys = (.ok m, s1))
    (h3 : m.file = none ∨ m.file = some "" ∨
      ∃ f e, m.file = some f ∧ env.resolvePath f = .error e) :
    (∀ d : CanonPath, is_module_from_dir env m d = false) ∧
    get_samgeo env st = (.ok m, ⟨s1, some m⟩) := by
  have hfalse : ∀ d : CanonPath, is_module_from_dir env m d = false := by
    intro d
    rcases h3 with h | h | ⟨f, e, hf, he⟩
    · simp [is_module_from_dir, h]
    · simp [is_module_from_dir, h]
    · simp [is_module_from_dir, hf, he]
  refine ⟨hfalse, ?_⟩
  have hs1 : strat1 env sc.dropLast st.sys = (some m, s1) := by
    simp only [strat1, h2, hfalse sc.dropLast, Bool.false_eq_true, if_false]
  simp only [get_samgeo, h0, h1, hs1]

/-- A world whose import returns a module with no `__file__` attribute. -/
def noOriginEnv : Env := { failEnv with importSamgeo := fun s => (.ok Mnone, s) }

/-- C9 witness: the concrete origin-less module is reported as not shadowed
and is accepted and cached by strategy 1. -/
theorem c9_no_origin_accepted_witness :
    is_module_from_dir noOriginEnv Mnone ["plug", "samgeo"] = false ∧
    get_samgeo noOriginEnv st0 = (.ok Mnone, ⟨s0, some Mnone⟩) :=
  ⟨(c9_no_origin_accepted noOriginEnv st0 ["plug", "samgeo", "lib.py"] Mnone s0
      rfl rfl rfl (Or.inl rfl)).1 ["plug", "samgeo"],
   (c9_no_origin_accepted noOriginEnv st0 ["plug", "samgeo", "lib.py"] Mnone s0
      rfl rfl rfl (Or.inl rfl)).2⟩

/-! ## C10: registration precedes execution, so failures are not atomic -/

/-- C10: strategy 3 registers the fresh module under the alias *before*
executing its code.  When execution raises (leaving the alias entry alone,
`h7`), the exception propagates while the partially initialized module
remains registered under the alias, and a subsequent invocation of
strategy 3 returns that module, with no state change — nothing is
re-executed. -/
theorem c10_partial_registration (env : Env) (nm : String) (s : SysState)
    (d : Dist) (ir : String) (ip : CanonPath) (sp : LoadSpec) (e : Nat)
    (s2 : SysState)
    (h1 : env.distribution nm = .found d)
    (h2 : findInit d.files = some ir)
    (h3 : env.resolvePath (d.locate ir) = .ok ip)
    (h4 : s.modules "samgeo_external" = none)
    (h5 : env.mkSpec ip ip.dropLast = some sp)
    (h6 : env.execModule sp (env.moduleFromSpec sp)
        { s with modules :=
            setMod s.modules "samgeo_external" (some (env.moduleFromSpec sp)) }
      = (.error e, s2))
    (h7 : s2.modules "samgeo_external" = some (env.moduleFromSpec sp)) :
    load_external_samgeo_from_dist env nm s = (.error e, s2) ∧
    load_external_samgeo_from_dist env nm s2
      = (.ok (some (env.moduleFromSpec sp)), s2) := by
  constructor
  · simp only [load_external_samgeo_from_dist, h1, h2, h3, h4, h5, h6]
  · simp only [load_external_samgeo_from_dist, h1, h2, h3, h7]

/-- C10 witness: in the concrete world whose module execution raises `7`,
the first strategy-3 invocation propagates the exception with the module
left registered under the alias, and a second invocation returns that
module unchanged. -/
theorem c10_partial_registration_witness :
    load_external_samgeo_from_dist distExecFailEnv "samgeo" s0
      = (.error 7, ⟨["sp"], setMod noMods "samgeo_external" (some Mfresh)⟩) ∧
    load_external_samgeo_from_dist distExecFailEnv "samgeo"
        ⟨["sp"], setMod noMods "samgeo_external" (some Mfresh)⟩
      = (.ok (some Mfresh), ⟨["sp"], setMod noMods "samgeo_external" (some Mfresh)⟩) :=
  c10_partial_registration distExecFailEnv "samgeo" s0 cDist "samgeo/__init__.py"
    ["site", "samgeo", "init.py"] cSpec 7
    ⟨["sp"], setMod noMods "samgeo_external" (some Mfresh)⟩
    rfl (by decide) rfl rfl rfl rfl (by simp only [setMod, if_pos]; rfl)

end SamgeoLib
